import Mathlib

set_option maxHeartbeats 1000000

/-!
Verification development for the ockam credential-exchange worker
(`ockam_identity/src/credential/worker.rs`) and the durable file value store
(`ockam_node/src/storage/file_value_storage.rs`).

The worker is embedded as pure functions over an explicit request/response
model; the file store is embedded as explicit state passing over a modelled
filesystem (a map from paths to byte lists) together with a fault oracle that
says which primitive file operation, if any, fails.
-/

deriving instance DecidableEq for Except

namespace Ockam

/-- Request method, mirroring the ockam_core api Method variants used here. -/
inductive Method
| get
| post
| put
| delete
| patch
deriving DecidableEq

/-- Response status, mirroring the ockam_core api Status values the worker uses. -/
inductive Status
| ok
| badRequest
| internalServerError
deriving DecidableEq

/-- A credential: an attribute set bound to a subject identifier and signed by
one issuer.  Identifiers and issuers are opaque numbers. -/
structure Credential where
  issuer : Nat
  subject : Nat
  attributes : List (String × String)
deriving DecidableEq

/-- Response body: empty, an api Error (path plus message), a plain text
message, or a serialized credential. -/
inductive Body
| empty
| errorBody (path msg : String)
| textBody (msg : String)
| credentialBody (c : Credential)
deriving DecidableEq

/-- Response envelope: the echoed request id, a status and a body. -/
structure Response where
  id : Nat
  status : Status
  body : Body
deriving DecidableEq

/-- Errors that flow out of the worker's request handling: a failed minicbor
decode of the credential body, a storage failure while committing, or a failed
send of the response. -/
inductive WErr
| credentialDecode
| storageWrite
| sendFailed
deriving DecidableEq

/-- The human-readable rendering used for the internal-server-error body
(err.to_string() in the source). -/
def WErr.message : WErr → String
| WErr.credentialDecode => "credential decode error"
| WErr.storageWrite => "storage write error"
| WErr.sendFailed => "send failed"

/-- Modelled from the spec: the AuthenticatedStorage collaborator (its trait is
not under src/), "an authenticated-storage capability exposing commit verified
credential for sender and look up prior credential for sender".  `failing`
models a backend whose commit fails with a storage error. -/
structure Storage where
  entries : List (Nat × Credential)
  failing : Bool
deriving DecidableEq

/-- Look up the committed credential for a sender. -/
def storageGet (st : Storage) (k : Nat) : Option Credential :=
  st.entries.lookup k

/-- Commit a verified credential keyed by the sender identifier. -/
def storagePut (st : Storage) (k : Nat) (c : Credential) : Except WErr Storage :=
  if st.failing then Except.error WErr.storageWrite
  else Except.ok ⟨(k, c) :: st.entries, st.failing⟩

/-- Modelled from the spec: the Identity collaborator (not under src/) as the
worker uses it, "an identity capability exposing read current local
credential": it holds an optional local credential behind a read accessor. -/
structure Identity where
  credential : Option Credential
deriving DecidableEq

/-- Modelled from the spec: the assumed-correct external primitive "verify
signature of presented credential against a given trust anchor".  A
credential's signature checks against exactly its issuing authority. -/
def signatureValid (authority : Nat) (c : Credential) : Bool :=
  c.issuer == authority

/-- Modelled from the spec: the shared verification algorithm of
Identity::receive_presented_credential (not under src/): "check the
credential's signature against each trusted authority in configured order
until one validates the signature AND the credential's subject matches the
message's verified sender identifier; reject if no authority validates." -/
def verifyCredential (sender : Nat) (c : Credential) (authorities : List Nat) : Bool :=
  authorities.any (fun a => signatureValid a c) && (c.subject == sender)

/-- Mirror of ProcessArrivedCredentialResult from the credential module. -/
inductive ProcessArrivedCredentialResult
| Ok
| BadRequest (msg : String)
deriving DecidableEq

/-- The diagnostic string produced on a failed verification. -/
def verificationFailedMsg : String := "credential verification failed"

/-- Modelled from the spec: Identity::receive_presented_credential (not under
src/): verify the presented credential, and "on acceptance, the verified
credential is committed through the authenticated-storage collaborator (keyed
by sender identifier) before any success response is emitted"; on rejection
report BadRequest and commit nothing; a failing storage backend surfaces an
internal error. -/
def receive_presented_credential (sender : Nat) (cred : Credential)
    (authorities : List Nat) (storage : Storage) :
    Except WErr (ProcessArrivedCredentialResult × Storage) :=
  if verifyCredential sender cred authorities then
    match storagePut storage sender cred with
    | Except.error e => Except.error e
    | Except.ok st => Except.ok (ProcessArrivedCredentialResult.Ok, st)
  else
    Except.ok (ProcessArrivedCredentialResult.BadRequest verificationFailedMsg, storage)

/-- Request envelope as handle_request consumes it: numeric id, optional
method, path string, and the body seen through the credential decoder (none
when the body does not decode as a Credential). -/
structure Request where
  id : Nat
  method : Option Method
  path : String
  body : Option Credential
deriving DecidableEq

/-- Split a character list at '/' separators. -/
def splitSegsAux : List Char → List Char → List String
| [], acc => [String.mk acc.reverse]
| c :: rest, acc =>
    if c = '/' then String.mk acc.reverse :: splitSegsAux rest []
    else splitSegsAux rest (c :: acc)

/-- Path segments of a request path: split on '/' dropping empty segments
(Request::path_segments). -/
def pathSegments (p : String) : List String :=
  (splitSegsAux p.data []).filter (fun s => s != "")

/-- Log lines the worker emits (trace on every request, a warning on an
unmatched endpoint, errors on envelope-decode and handler failures). -/
inductive WLog
| traceRequest
| warnInvalidEndpoint (method : Method) (path : String)
| errorDecodeRequest
| errorHandleFailed
deriving DecidableEq

/-- CredentialExchangeWorker: trusted authorities, the present-back flag, the
authenticated storage and the local identity, all fixed at construction. -/
structure CredentialExchangeWorker where
  authorities : List Nat
  present_back : Bool
  authenticated_storage : Storage
  identity : Identity
deriving DecidableEq

/-- Outcome of handle_request: the encoded response (or a propagated internal
error), the storage state afterwards, and the emitted log lines. -/
structure HROut where
  result : Except WErr Response
  storage : Storage
  logs : List WLog
deriving DecidableEq

/-- CredentialExchangeWorker::bad_request: an api Error carrying the request
path and a message, inside a bad-request response. -/
def bad_request (id : Nat) (path msg : String) : Response :=
  ⟨id, Status.badRequest, Body.errorBody path msg⟩

/-- CredentialExchangeWorker::handle_request.  Routes on (method, path
segments): POST actions/present decodes and verifies a credential (committing
it on success); POST actions/present_mutual does the same and then presents
the local credential back when the flag is set and one is configured; a
missing method answers bad-request "Invalid method"; anything else answers
bad-request naming the path and logs a warning.  Decode and storage failures
propagate as errors. -/
def handle_request (w : CredentialExchangeWorker) (req : Request) (sender : Nat) : HROut :=
  match req.method with
  | none =>
      ⟨Except.ok ⟨req.id, Status.badRequest, Body.textBody "Invalid method"⟩,
        w.authenticated_storage, [WLog.traceRequest]⟩
  | some m =>
      if m = Method.post ∧ pathSegments req.path = ["actions", "present"] then
        match req.body with
        | none =>
            ⟨Except.error WErr.credentialDecode, w.authenticated_storage, [WLog.traceRequest]⟩
        | some cred =>
            match receive_presented_credential sender cred w.authorities
                w.authenticated_storage with
            | Except.error e => ⟨Except.error e, w.authenticated_storage, [WLog.traceRequest]⟩
            | Except.ok (ProcessArrivedCredentialResult.Ok, st) =>
                ⟨Except.ok ⟨req.id, Status.ok, Body.empty⟩, st, [WLog.traceRequest]⟩
            | Except.ok (ProcessArrivedCredentialResult.BadRequest msg, st) =>
                ⟨Except.ok (bad_request req.id req.path msg), st, [WLog.traceRequest]⟩
      else if m = Method.post ∧ pathSegments req.path = ["actions", "present_mutual"] then
        match req.body with
        | none =>
            ⟨Except.error WErr.credentialDecode, w.authenticated_storage, [WLog.traceRequest]⟩
        | some cred =>
            match receive_presented_credential sender cred w.authorities
                w.authenticated_storage with
            | Except.error e => ⟨Except.error e, w.authenticated_storage, [WLog.traceRequest]⟩
            | Except.ok (ProcessArrivedCredentialResult.BadRequest msg, st) =>
                ⟨Except.ok (bad_request req.id req.path msg), st, [WLog.traceRequest]⟩
            | Except.ok (ProcessArrivedCredentialResult.Ok, st) =>
                match w.identity.credential, w.present_back with
                | some p, true =>
                    ⟨Except.ok ⟨req.id, Status.ok, Body.credentialBody p⟩, st,
                      [WLog.traceRequest]⟩
                | _, _ =>
                    ⟨Except.ok ⟨req.id, Status.ok, Body.empty⟩, st, [WLog.traceRequest]⟩
      else
        ⟨Except.ok ⟨req.id, Status.badRequest,
            Body.textBody (String.append "Invalid endpoint: " req.path)⟩,
          w.authenticated_storage,
          [WLog.traceRequest, WLog.warnInvalidEndpoint m req.path]⟩

/-- An inbound routed message: the payload's envelope-decode outcome (none when
the bytes do not decode as a request envelope), the channel-verified sender
identifier that the spec assumes the secure channel attaches to every message,
and the return route. -/
structure InMessage where
  envelope : Option Request
  sender : Nat
  returnRoute : List Nat
deriving DecidableEq

/-- Outcome of handle_message: the worker result, the storage afterwards, the
log lines, and the response send that was attempted (route and response),
none when nothing was sent. -/
structure HMOut where
  result : Except WErr Unit
  storage : Storage
  logs : List WLog
  sent : Option (List Nat × Response)
deriving DecidableEq

/-- Worker::handle_message.  An undecodable envelope is logged and the worker
returns Ok without sending anything.  Otherwise handle_request runs; an
internal error becomes an internal-server-error response carrying the error
text; the response is sent along the message's return route, and a failed send
(sendOk = false) is propagated as the worker's own failure. -/
def handle_message (w : CredentialExchangeWorker) (sendOk : Bool) (msg : InMessage) : HMOut :=
  match msg.envelope with
  | none => ⟨Except.ok (), w.authenticated_storage, [WLog.errorDecodeRequest], none⟩
  | some req =>
      let hr := handle_request w req msg.sender
      let rl : Response × List WLog :=
        match hr.result with
        | Except.ok r => (r, hr.logs)
        | Except.error e =>
            (⟨req.id, Status.internalServerError, Body.textBody (WErr.message e)⟩,
              hr.logs ++ [WLog.errorHandleFailed])
      if sendOk then ⟨Except.ok (), hr.storage, rl.2, some (msg.returnRoute, rl.1)⟩
      else ⟨Except.error WErr.sendFailed, hr.storage, rl.2, some (msg.returnRoute, rl.1)⟩

/-! ## The durable file value store -/

/-- Storage-level errors: I/O-typed failures (map_io_err and, modelled from the
spec's error taxonomy, ValueStorageError::StorageError, whose definition is not
under src/) versus invalid stored data (ValueStorageError::InvalidStorageData,
raised on a failed deserialization). -/
inductive SErr
| ioError
| invalidStorageData
deriving DecidableEq

/-- The modelled filesystem: a map from paths to file contents (byte lists). -/
def Fs : Type := String → Option (List Nat)

/-- Content at a path. -/
def Fs.get (fs : Fs) (p : String) : Option (List Nat) := fs p

/-- Write (create or replace) the file at a path. -/
def Fs.set (fs : Fs) (p : String) (d : List Nat) : Fs :=
  fun q => if q = p then some d else fs q

/-- Remove the file at a path. -/
def Fs.erase (fs : Fs) (p : String) : Fs :=
  fun q => if q = p then none else fs q

/-- Atomic rename: the destination receives exactly the source's bytes and the
source disappears; fails when the source is missing. -/
def Fs.rename (fs : Fs) (src dst : String) : Option Fs :=
  match fs.get src with
  | none => none
  | some d => some (Fs.set (Fs.erase fs src) dst d)

/-- Observable file-level events: lock acquisitions and release, a write to a
path, and a rename. -/
inductive FsEvent
| lockEx
| lockSh
| unlock
| write (path : String)
| renamed (src dst : String)
deriving DecidableEq

/-- Fault oracle: which primitive operation of a single store call fails.
`cutLen` is how many bytes a failing write still puts down before erroring. -/
structure Faults where
  openLockFails : Bool
  lockFails : Bool
  openFails : Bool
  openTempFails : Bool
  writeFails : Bool
  cutLen : Nat
  flushFails : Bool
  syncFails : Bool
  renameFails : Bool
  unlockFails : Bool
deriving DecidableEq

/-- The fault-free oracle. -/
def noFaults : Faults := ⟨false, false, false, false, false, 0, false, false, false, false⟩

/-- Result of a store operation: the returned value or error, the filesystem
afterwards, and the file-level events that happened. -/
structure FsOut (α : Type) where
  res : Except SErr α
  fs : Fs
  events : List FsEvent

/-- A serde codec for the stored value type: total serialization, partial
deserialization. -/
structure Codec (V : Type) where
  enc : V → List Nat
  dec : List Nat → Option V

/-- Storage location triple (primary, temp, lock), as in the Rust struct. -/
structure FileStorage where
  path : String
  temp_path : String
  lock_path : String
deriving DecidableEq

/-- Final path component (file name), empties preserved. -/
def fileNamePart (p : String) : String :=
  ((splitSegsAux p.data []).getLast?).getD ""

/-- Whether the file name has a Rust Path extension: a dot after its first
character. -/
def hasExtension (p : String) : Bool :=
  ((fileNamePart p).data.drop 1).contains '.'

/-- FileStorage::path_with_suffix: when the path has an extension the suffix is
appended to it (path.with_extension(ext ++ suffix)), otherwise the suffix
becomes the extension (path.with_extension(suffix), adding a dot). -/
def path_with_suffix (p suffix : String) : String :=
  if hasExtension p then p ++ suffix else p ++ ("." ++ suffix)

/-- FileStorage::new: derive the temp and lock paths from the base path. -/
def FileStorage.new (path : String) : FileStorage :=
  ⟨path, path_with_suffix path ".tmp", path_with_suffix path ".lock"⟩

/-- The effect on the filesystem of open_lock_file's OpenOptions
(write+read+create): the lock file is created empty when missing. -/
def openLockEnsure (fs : Fs) (lockPath : String) : Fs :=
  if (fs.get lockPath).isSome then fs else fs.set lockPath []

/-- FileStorage::open_lock_file. -/
def open_lock_file (lockPath : String) (fs : Fs) (flt : Faults) : FsOut Unit :=
  if flt.openLockFails then ⟨Except.error SErr.ioError, fs, []⟩
  else ⟨Except.ok (), openLockEnsure fs lockPath, []⟩

/-- FileStorage::load: open the primary file (an I/O error when missing or when
the open fails) and deserialize it (invalid-storage-data on malformed
content). -/
def load {V : Type} (codec : Codec V) (path : String) (fs : Fs) (flt : Faults) :
    Except SErr V :=
  if flt.openFails then Except.error SErr.ioError
  else
    match fs.get path with
    | none => Except.error SErr.ioError
    | some bytes =>
        match codec.dec bytes with
        | none => Except.error SErr.invalidStorageData
        | some v => Except.ok v

/-- FileStorage::flush_to_file: serialize, open the temp file with write and
create but notably without truncate — prior temp content beyond the new data's
length survives — then write, flush, sync and rename the temp file onto the
target.  Every failure is I/O-typed; a failing write leaves a partial prefix
(cutLen bytes) in the temp file; only the rename changes the target. -/
def flush_to_file (target temp_path : String) (data : List Nat) (fs : Fs) (flt : Faults) :
    FsOut Unit :=
  if flt.openTempFails then ⟨Except.error SErr.ioError, fs, []⟩
  else
    let old : List Nat := (fs.get temp_path).getD []
    let fs1 : Fs := if (fs.get temp_path).isSome then fs else fs.set temp_path []
    if flt.writeFails then
      ⟨Except.error SErr.ioError,
        fs1.set temp_path (data.take flt.cutLen ++ old.drop flt.cutLen),
        [FsEvent.write temp_path]⟩
    else
      let fs2 : Fs := fs1.set temp_path (data ++ old.drop data.length)
      if flt.flushFails then ⟨Except.error SErr.ioError, fs2, [FsEvent.write temp_path]⟩
      else if flt.syncFails then ⟨Except.error SErr.ioError, fs2, [FsEvent.write temp_path]⟩
      else if flt.renameFails then ⟨Except.error SErr.ioError, fs2, [FsEvent.write temp_path]⟩
      else
        match Fs.rename fs2 temp_path target with
        | none => ⟨Except.error SErr.ioError, fs2, [FsEvent.write temp_path]⟩
        | some fs3 =>
            ⟨Except.ok (), fs3,
              [FsEvent.write temp_path, FsEvent.renamed temp_path target]⟩

/-- FileStorage::init: take the exclusive lock; when the primary file does not
exist, flush the default value to it through the temp file; release the
lock. -/
def FileStorage.init {V : Type} (s : FileStorage) (codec : Codec V) (dflt : V)
    (fs : Fs) (flt : Faults) : FsOut Unit :=
  match open_lock_file s.lock_path fs flt with
  | ⟨Except.error e, fs1, ev⟩ => ⟨Except.error e, fs1, ev⟩
  | ⟨Except.ok _, fs1, _⟩ =>
      if flt.lockFails then ⟨Except.error SErr.ioError, fs1, []⟩
      else
        if (fs1.get s.path).isSome then
          if flt.unlockFails then ⟨Except.error SErr.ioError, fs1, [FsEvent.lockEx]⟩
          else ⟨Except.ok (), fs1, [FsEvent.lockEx, FsEvent.unlock]⟩
        else
          match flush_to_file s.path s.temp_path (codec.enc dflt) fs1 flt with
          | ⟨Except.error e, fs2, ev⟩ => ⟨Except.error e, fs2, FsEvent.lockEx :: ev⟩
          | ⟨Except.ok _, fs2, ev⟩ =>
              if flt.unlockFails then ⟨Except.error SErr.ioError, fs2, FsEvent.lockEx :: ev⟩
              else ⟨Except.ok (), fs2, FsEvent.lockEx :: (ev ++ [FsEvent.unlock])⟩

/-- FileStorage::create: construct the triple from the base path and run
init. -/
def FileStorage.create {V : Type} (path : String) (codec : Codec V) (dflt : V)
    (fs : Fs) (flt : Faults) : FsOut FileStorage :=
  let s := FileStorage.new path
  match s.init codec dflt fs flt with
  | ⟨Except.error e, fs1, ev⟩ => ⟨Except.error e, fs1, ev⟩
  | ⟨Except.ok _, fs1, ev⟩ => ⟨Except.ok s, fs1, ev⟩

/-- ValueStorage::update_value for FileStorage: take the exclusive lock, load
the current value, apply the caller's transform, flush the new value through
the temp file, unlock, and return the transform's result.  An error at any
step aborts right there (the lock is then released only by the handle being
dropped, so no unlock event is recorded). -/
def FileStorage.update_value {V R : Type} (s : FileStorage) (codec : Codec V)
    (f : V → Except SErr (V × R)) (fs : Fs) (flt : Faults) : FsOut R :=
  match open_lock_file s.lock_path fs flt with
  | ⟨Except.error e, fs1, _⟩ => ⟨Except.error e, fs1, []⟩
  | ⟨Except.ok _, fs1, _⟩ =>
      if flt.lockFails then ⟨Except.error SErr.ioError, fs1, []⟩
      else
        match load codec s.path fs1 flt with
        | Except.error e => ⟨Except.error e, fs1, [FsEvent.lockEx]⟩
        | Except.ok v =>
            match f v with
            | Except.error e => ⟨Except.error e, fs1, [FsEvent.lockEx]⟩
            | Except.ok (v2, r) =>
                match flush_to_file s.path s.temp_path (codec.enc v2) fs1 flt with
                | ⟨Except.error e, fs2, ev⟩ => ⟨Except.error e, fs2, FsEvent.lockEx :: ev⟩
                | ⟨Except.ok _, fs2, ev⟩ =>
                    if flt.unlockFails then
                      ⟨Except.error SErr.ioError, fs2, FsEvent.lockEx :: ev⟩
                    else ⟨Except.ok r, fs2, FsEvent.lockEx :: (ev ++ [FsEvent.unlock])⟩

/-- ValueStorage::read_value for FileStorage: take the shared lock, load the
current value, apply the caller's transform, unlock, and return its result.
Reads never write any data file. -/
def FileStorage.read_value {V R : Type} (s : FileStorage) (codec : Codec V)
    (f : V → Except SErr R) (fs : Fs) (flt : Faults) : FsOut R :=
  match open_lock_file s.lock_path fs flt with
  | ⟨Except.error e, fs1, _⟩ => ⟨Except.error e, fs1, []⟩
  | ⟨Except.ok _, fs1, _⟩ =>
      if flt.lockFails then ⟨Except.error SErr.ioError, fs1, []⟩
      else
        match load codec s.path fs1 flt with
        | Except.error e => ⟨Except.error e, fs1, [FsEvent.lockSh]⟩
        | Except.ok v =>
            match f v with
            | Except.error e => ⟨Except.error e, fs1, [FsEvent.lockSh]⟩
            | Except.ok r =>
                if flt.unlockFails then ⟨Except.error SErr.ioError, fs1, [FsEvent.lockSh]⟩
                else ⟨Except.ok r, fs1, [FsEvent.lockSh, FsEvent.unlock]⟩

/-! ## Concrete instances used by witnesses and counterexamples -/

/-- A concrete serde-json-like codec for Nat: decimal digit bytes.  Like
serde_json it rejects empty and non-digit content, and like a json number a
decimal digit string always parses, so trailing digit bytes silently change
the value. -/
def encNat (n : Nat) : List Nat := (Nat.repr n).data.map Char.toNat

/-- Decode decimal digit bytes. -/
def decNat (bs : List Nat) : Option Nat :=
  if bs = [] then none
  else if bs.all (fun b => decide (48 ≤ b) && decide (b ≤ 57)) then
    some (bs.foldl (fun acc b => acc * 10 + (b - 48)) 0)
  else none

/-- The Nat codec. -/
def natCodec : Codec Nat := ⟨encNat, decNat⟩

/-- A local credential held by the worker's own identity. -/
def ownCred : Credential := ⟨1, 99, []⟩

/-- A presented credential signed by trusted authority 1 for subject 42. -/
def cred1 : Credential := ⟨1, 42, []⟩

/-- A concrete worker: authority set [1], present-back enabled, empty healthy
storage, a configured local credential. -/
def w0 : CredentialExchangeWorker := ⟨[1], true, ⟨[], false⟩, ⟨some ownCred⟩⟩

/-- The same worker with a failing storage backend. -/
def w0f : CredentialExchangeWorker := ⟨[1], true, ⟨[], true⟩, ⟨some ownCred⟩⟩

/-- A decodable present request. -/
def req1 : Request := ⟨7, some Method.post, "actions/present", some cred1⟩

/-- A decodable present_mutual request. -/
def req2 : Request := ⟨8, some Method.post, "actions/present_mutual", some cred1⟩

/-- A present request whose body does not decode as a Credential. -/
def req3 : Request := ⟨7, some Method.post, "actions/present", none⟩

/-- An unmatched-path request with a recognized method. -/
def reqU : Request := ⟨9, some Method.get, "actions/unknown", none⟩

/-- A request with no recognized method on an unmatched path. -/
def reqN : Request := ⟨9, none, "actions/unknown", none⟩

/-- A message whose payload fails to decode as a request envelope. -/
def msgBad : InMessage := ⟨none, 1, [0]⟩

/-- A message carrying the undecodable-credential present request. -/
def msg3 : InMessage := ⟨some req3, 42, [9]⟩

/-- A message carrying the decodable present request. -/
def msg5 : InMessage := ⟨some req1, 42, [3, 4]⟩

/-- Substring test on strings, used to state that a body does not name a
path. -/
def strContains (s sub : String) : Bool :=
  (List.range (s.data.length + 1)).any (fun i => sub.data.isPrefixOf (s.data.drop i))

/-- The empty filesystem. -/
def fsEmpty : Fs := fun _ => none

/-- A filesystem holding only a stale temp file with bytes "99" at the temp
path of base path "v" (as left by an interrupted earlier write). -/
def fsC7 : Fs := fun q => if q = path_with_suffix "v" ".tmp" then some [57, 57] else none

/-- A filesystem holding only a primary file "v" with content "1". -/
def fsC9 : Fs := fun q => if q = "v" then some [49] else none

/-- A filesystem holding only a primary file "v" with content "5". -/
def fsC10 : Fs := fun q => if q = "v" then some [53] else none

/-- Faults for a write that fails after 3 bytes. -/
def faultsCutWrite : Faults := ⟨false, false, false, false, true, 3, false, false, false, false⟩

/-! ## Helper lemmas -/

theorem pathSegments_present : pathSegments "actions/present" = ["actions", "present"] := by
  rfl

theorem pathSegments_mutual :
    pathSegments "actions/present_mutual" = ["actions", "present_mutual"] := by
  rfl

theorem storageGet_put (st : Storage) (k : Nat) (c : Credential) (st2 : Storage)
    (h : storagePut st k c = Except.ok st2) : storageGet st2 k = some c := by
  unfold storagePut at h
  by_cases hf : st.failing
  · rw [if_pos hf] at h
    exact absurd h (by simp)
  · rw [if_neg hf] at h
    cases h
    simp [storageGet, List.lookup]

theorem storagePut_ok_of_not_failing (st : Storage) (k : Nat) (c : Credential)
    (h : st.failing = false) :
    storagePut st k c = Except.ok ⟨(k, c) :: st.entries, st.failing⟩ := by
  simp [storagePut, h]

/-! ## Claims about the credential exchange worker -/

/-- C1: a POST to actions/present with a decodable credential and verified
sender: when the credential verifies against the authority set for the sender,
the response is OK with empty body and the credential is committed to the
authenticated storage keyed by the sender; when verification fails, the
response is bad-request with a diagnostic body addressed to the request's path
and the storage is unchanged. -/
theorem C1_present_behavior (w : CredentialExchangeWorker) (req : Request) (sender : Nat)
    (cred : Credential) (hm : req.method = some Method.post)
    (hp : req.path = "actions/present") (hb : req.body = some cred)
    (hio : w.authenticated_storage.failing = false) :
    (verifyCredential sender cred w.authorities = true →
      (handle_request w req sender).result =
        Except.ok ⟨req.id, Status.ok, Body.empty⟩ ∧
      storageGet (handle_request w req sender).storage sender = some cred) ∧
    (verifyCredential sender cred w.authorities = false →
      (handle_request w req sender).result =
        Except.ok ⟨req.id, Status.badRequest,
          Body.errorBody req.path verificationFailedMsg⟩ ∧
      (handle_request w req sender).storage = w.authenticated_storage) := by
  have hseg : pathSegments req.path = ["actions", "present"] := by
    rw [hp]; exact pathSegments_present
  constructor
  · intro hv
    constructor
    · simp [handle_request, hm, hseg, hb, receive_presented_credential, hv, storagePut, hio]
    · simp [handle_request, hm, hseg, hb, receive_presented_credential, hv, storagePut, hio,
        storageGet, List.lookup]
  · intro hv
    constructor
    · simp [handle_request, hm, hseg, hb, receive_presented_credential, hv, bad_request]
    · simp [handle_request, hm, hseg, hb, receive_presented_credential, hv]

/-- C1 witness: the theorem applied to a concrete verifying input. -/
theorem C1_witness :
    req1.method = some Method.post ∧ req1.path = "actions/present" ∧
    req1.body = some cred1 ∧ w0.authenticated_storage.failing = false ∧
    ((verifyCredential 42 cred1 w0.authorities = true →
        (handle_request w0 req1 42).result =
          Except.ok ⟨req1.id, Status.ok, Body.empty⟩ ∧
        storageGet (handle_request w0 req1 42).storage 42 = some cred1) ∧
      (verifyCredential 42 cred1 w0.authorities = false →
        (handle_request w0 req1 42).result =
          Except.ok ⟨req1.id, Status.badRequest,
            Body.errorBody req1.path verificationFailedMsg⟩ ∧
        (handle_request w0 req1 42).storage = w0.authenticated_storage)) :=
  ⟨rfl, rfl, rfl, rfl, C1_present_behavior w0 req1 42 cred1 rfl rfl rfl rfl⟩

/-- C2: a POST to actions/present_mutual: on verification failure the response
is the same bad-request as for actions/present; on success the response is OK,
with the local identity's own credential as body exactly when the present-back
flag is set and a local credential is configured, and an empty body
otherwise. -/
theorem C2_present_mutual_behavior (w : CredentialExchangeWorker) (req : Request)
    (sender : Nat) (cred : Credential) (hm : req.method = some Method.post)
    (hp : req.path = "actions/present_mutual") (hb : req.body = some cred)
    (hio : w.authenticated_storage.failing = false) :
    (verifyCredential sender cred w.authorities = false →
      (handle_request w req sender).result =
        Except.ok ⟨req.id, Status.badRequest,
          Body.errorBody req.path verificationFailedMsg⟩) ∧
    (verifyCredential sender cred w.authorities = true →
      (∀ p, w.identity.credential = some p → w.present_back = true →
        (handle_request w req sender).result =
          Except.ok ⟨req.id, Status.ok, Body.credentialBody p⟩) ∧
      ((w.present_back = false ∨ w.identity.credential = none) →
        (handle_request w req sender).result =
          Except.ok ⟨req.id, Status.ok, Body.empty⟩)) := by
  have hseg : pathSegments req.path = ["actions", "present_mutual"] := by
    rw [hp]; exact pathSegments_mutual
  constructor
  · intro hv
    simp [handle_request, hm, hseg, hb, receive_presented_credential, hv, bad_request]
  · intro hv
    constructor
    · intro p hcred hpb
      simp [handle_request, hm, hseg, hb, receive_presented_credential, hv, storagePut, hio,
        hcred, hpb]
    · intro hcase
      rcases hcase with hpb | hcred
      · cases hcred2 : w.identity.credential with
        | none =>
            simp [handle_request, hm, hseg, hb, receive_presented_credential, hv, storagePut,
              hio, hcred2]
        | some p =>
            simp [handle_request, hm, hseg, hb, receive_presented_credential, hv, storagePut,
              hio, hcred2, hpb]
      · simp [handle_request, hm, hseg, hb, receive_presented_credential, hv, storagePut, hio,
          hcred]

/-- C2 witness: the theorem applied to a concrete verifying input with
present-back enabled and a configured local credential. -/
theorem C2_witness :
    req2.method = some Method.post ∧ req2.path = "actions/present_mutual" ∧
    req2.body = some cred1 ∧ w0.authenticated_storage.failing = false ∧
    verifyCredential 42 cred1 w0.authorities = true ∧
    w0.identity.credential = some ownCred ∧ w0.present_back = true ∧
    (handle_request w0 req2 42).result =
      Except.ok ⟨req2.id, Status.ok, Body.credentialBody ownCred⟩ :=
  ⟨rfl, rfl, rfl, rfl, rfl, rfl, rfl,
    ((C2_present_mutual_behavior w0 req2 42 cred1 rfl rfl rfl rfl).2 rfl).1 ownCred rfl rfl⟩

/-- C3 counterexample: on a matched actions/present route whose body fails to
decode as a Credential, the handler reports an internal-server-error response,
not a bad-request one, so the claim that every attacker-reachable protocol
error is reported as bad-request (never internal-server-error) is false. -/
theorem C3_counterexample :
    (handle_message w0 true msg3).sent =
      some ([9], ⟨7, Status.internalServerError,
        Body.textBody (WErr.message WErr.credentialDecode)⟩) ∧
    Status.internalServerError ≠ Status.badRequest := by
  decide

/-- C3 (amended): a malformed envelope is logged and produces no response at
all; whenever sending succeeds handle_message returns success (the handler
never crashes); an unmatched route with a recognized method and a failed
credential verification are reported to the peer as bad-request; and a request
body that fails to decode as a Credential on a matched route is reported as
internal-server-error. -/
theorem C3_protocol_error_reporting (w : CredentialExchangeWorker) (msg : InMessage) :
    (msg.envelope = none →
      (handle_message w true msg).sent = none ∧
      (handle_message w true msg).result = Except.ok ()) ∧
    (handle_message w true msg).result = Except.ok () ∧
    (∀ req m, msg.envelope = some req → req.method = some m →
      ¬(m = Method.post ∧ pathSegments req.path = ["actions", "present"]) →
      ¬(m = Method.post ∧ pathSegments req.path = ["actions", "present_mutual"]) →
      ∃ r, (handle_message w true msg).sent = some (msg.returnRoute, r) ∧
        r.status = Status.badRequest) ∧
    (∀ req cred, msg.envelope = some req → req.method = some Method.post →
      (pathSegments req.path = ["actions", "present"] ∨
        pathSegments req.path = ["actions", "present_mutual"]) →
      req.body = some cred →
      verifyCredential msg.sender cred w.authorities = false →
      ∃ r, (handle_message w true msg).sent = some (msg.returnRoute, r) ∧
        r.status = Status.badRequest) ∧
    (∀ req, msg.envelope = some req → req.method = some Method.post →
      (pathSegments req.path = ["actions", "present"] ∨
        pathSegments req.path = ["actions", "present_mutual"]) →
      req.body = none →
      (handle_message w true msg).sent = some (msg.returnRoute,
        ⟨req.id, Status.internalServerError,
          Body.textBody (WErr.message WErr.credentialDecode)⟩)) := by
  refine ⟨?_, ?_, ?_, ?_, ?_⟩
  · intro h
    simp [handle_message, h]
  · cases henv : msg.envelope with
    | none => simp [handle_message, henv]
    | some req => simp [handle_message, henv]
  · intro req m he hm h1 h2
    have hr : handle_request w req msg.sender =
        ⟨Except.ok ⟨req.id, Status.badRequest,
            Body.textBody (String.append "Invalid endpoint: " req.path)⟩,
          w.authenticated_storage,
          [WLog.traceRequest, WLog.warnInvalidEndpoint m req.path]⟩ := by
      simp only [handle_request, hm]
      rw [if_neg h1, if_neg h2]
    refine ⟨⟨req.id, Status.badRequest,
      Body.textBody (String.append "Invalid endpoint: " req.path)⟩, ?_, rfl⟩
    simp [handle_message, he, hr]
  · intro req cred he hm hseg hb hv
    refine ⟨bad_request req.id req.path verificationFailedMsg, ?_, rfl⟩
    cases hseg with
    | inl hs =>
        simp [handle_message, he, handle_request, hm, hs, hb,
          receive_presented_credential, hv, bad_request]
    | inr hs =>
        simp [handle_message, he, handle_request, hm, hs, hb,
          receive_presented_credential, hv, bad_request]
  · intro req he hm hseg hb
    cases hseg with
    | inl hs => simp [handle_message, he, handle_request, hm, hs, hb]
    | inr hs => simp [handle_message, he, handle_request, hm, hs, hb]

/-- C3 witness: the amended theorem applied to the concrete worker and the
message carrying an undecodable credential body on actions/present. -/
theorem C3_witness :
    (handle_message w0 true msg3).sent =
      some (msg3.returnRoute,
        ⟨req3.id, Status.internalServerError,
          Body.textBody (WErr.message WErr.credentialDecode)⟩) :=
  (C3_protocol_error_reporting w0 msg3).2.2.2.2 req3 rfl rfl
    (Or.inl pathSegments_present) rfl

/-- C4: a message whose bytes fail to decode as a request envelope is logged,
no response at all is sent, and the worker returns success; and this is the
only case in which no response send is attempted. -/
theorem C4_envelope_decode_failure (w : CredentialExchangeWorker) (sendOk : Bool)
    (msg : InMessage) (h : msg.envelope = none) :
    (handle_message w sendOk msg).logs = [WLog.errorDecodeRequest] ∧
    (handle_message w sendOk msg).sent = none ∧
    (handle_message w sendOk msg).result = Except.ok () ∧
    ∀ m2 : InMessage, (handle_message w sendOk m2).sent = none → m2.envelope = none := by
  refine ⟨by simp [handle_message, h], by simp [handle_message, h],
    by simp [handle_message, h], ?_⟩
  intro m2 h2
  cases hm2 : m2.envelope with
  | none => rfl
  | some req =>
      exfalso
      cases sendOk <;> simp [handle_message, hm2] at h2

/-- C4 witness: the theorem applied to a concrete undecodable message. -/
theorem C4_witness :
    msgBad.envelope = none ∧
    (handle_message w0 true msgBad).logs = [WLog.errorDecodeRequest] ∧
    (handle_message w0 true msgBad).sent = none ∧
    (handle_message w0 true msgBad).result = Except.ok () ∧
    ∀ m2 : InMessage, (handle_message w0 true m2).sent = none → m2.envelope = none :=
  ⟨rfl, C4_envelope_decode_failure w0 true msgBad rfl⟩

/-- C5: a decodable request whose matched action fails internally (here: the
storage commit fails while handling a verified actions/present credential)
produces an internal-server-error response that echoes the request id and
carries the error text; every attempted response goes along the inbound
message's return route; and a failure of the send itself is propagated out of
handle_message as the worker's own error. -/
theorem C5_internal_error_reporting (w : CredentialExchangeWorker) (msg : InMessage)
    (req : Request) (cred : Credential) (sendOk : Bool)
    (he : msg.envelope = some req) (hm : req.method = some Method.post)
    (hp : pathSegments req.path = ["actions", "present"]) (hb : req.body = some cred)
    (hv : verifyCredential msg.sender cred w.authorities = true)
    (hio : w.authenticated_storage.failing = true) :
    (handle_message w sendOk msg).sent =
      some (msg.returnRoute,
        ⟨req.id, Status.internalServerError,
          Body.textBody (WErr.message WErr.storageWrite)⟩) ∧
    (sendOk = false → (handle_message w sendOk msg).result = Except.error WErr.sendFailed) ∧
    (sendOk = true → (handle_message w sendOk msg).result = Except.ok ()) ∧
    (∀ (m2 : InMessage) (ok2 : Bool) (rt : List Nat) (r : Response),
      (handle_message w ok2 m2).sent = some (rt, r) → rt = m2.returnRoute) := by
  refine ⟨?_, ?_, ?_, ?_⟩
  · cases sendOk <;>
      simp [handle_message, he, handle_request, hm, hp, hb,
        receive_presented_credential, hv, storagePut, hio]
  · intro hs
    subst hs
    simp [handle_message, he]
  · intro hs
    subst hs
    simp [handle_message, he]
  · intro m2 ok2 rt r h2
    cases hm2 : m2.envelope with
    | none => simp [handle_message, hm2] at h2
    | some req2 =>
        cases ok2 <;> simp [handle_message, hm2] at h2 <;> exact h2.1.symm

/-- C5 witness: the theorem applied to the concrete failing-storage worker,
with a failing send. -/
theorem C5_witness :
    msg5.envelope = some req1 ∧ req1.method = some Method.post ∧
    pathSegments req1.path = ["actions", "present"] ∧ req1.body = some cred1 ∧
    verifyCredential msg5.sender cred1 w0f.authorities = true ∧
    w0f.authenticated_storage.failing = true ∧
    ((handle_message w0f false msg5).sent =
      some (msg5.returnRoute,
        ⟨req1.id, Status.internalServerError,
          Body.textBody (WErr.message WErr.storageWrite)⟩) ∧
    (false = false →
      (handle_message w0f false msg5).result = Except.error WErr.sendFailed) ∧
    (false = true → (handle_message w0f false msg5).result = Except.ok ()) ∧
    (∀ (m2 : InMessage) (ok2 : Bool) (rt : List Nat) (r : Response),
      (handle_message w0f ok2 m2).sent = some (rt, r) → rt = m2.returnRoute)) :=
  ⟨rfl, rfl, pathSegments_present, rfl, rfl, rfl,
    C5_internal_error_reporting w0f msg5 req1 cred1 false rfl rfl
      pathSegments_present rfl rfl rfl⟩

/-- C6 counterexample: a request with no recognized method on the unmatched
path actions/unknown is answered bad-request with the fixed body "Invalid
method", which does not name the unmatched path, and no warning is logged —
so the claim that every unmatched request, including one with no recognized
method, gets a body naming the path and a warning log is false. -/
theorem C6_counterexample :
    (handle_request w0 reqN 1).result =
      Except.ok ⟨9, Status.badRequest, Body.textBody "Invalid method"⟩ ∧
    strContains "Invalid method" "actions/unknown" = false ∧
    (handle_request w0 reqN 1).logs = [WLog.traceRequest] := by
  decide

/-- C6 (amended): a decodable request whose (method, path) pair matches
neither POST actions/present nor POST actions/present_mutual is answered
bad-request; when the method is recognized the body names the unmatched path
and the path and method are logged at warning level; when no method is
recognized the body is the fixed string "Invalid method" and no warning is
logged. -/
theorem C6_unmatched_endpoint (w : CredentialExchangeWorker) (req : Request) (sender : Nat) :
    (∀ m, req.method = some m →
      ¬(m = Method.post ∧ pathSegments req.path = ["actions", "present"]) →
      ¬(m = Method.post ∧ pathSegments req.path = ["actions", "present_mutual"]) →
      (handle_request w req sender).result =
        Except.ok ⟨req.id, Status.badRequest,
          Body.textBody (String.append "Invalid endpoint: " req.path)⟩ ∧
      WLog.warnInvalidEndpoint m req.path ∈ (handle_request w req sender).logs) ∧
    (req.method = none →
      (handle_request w req sender).result =
        Except.ok ⟨req.id, Status.badRequest, Body.textBody "Invalid method"⟩ ∧
      ∀ m p, WLog.warnInvalidEndpoint m p ∉ (handle_request w req sender).logs) := by
  constructor
  · intro m hm h1 h2
    constructor
    · simp only [handle_request, hm]
      rw [if_neg h1, if_neg h2]
    · simp only [handle_request, hm]
      rw [if_neg h1, if_neg h2]
      simp
  · intro hm
    refine ⟨by simp [handle_request, hm], ?_⟩
    intro m p
    simp [handle_request, hm]

/-- C6 witness: the amended theorem applied to a concrete unmatched GET
request. -/
theorem C6_witness :
    reqU.method = some Method.get ∧
    (handle_request w0 reqU 1).result =
      Except.ok ⟨reqU.id, Status.badRequest,
        Body.textBody (String.append "Invalid endpoint: " reqU.path)⟩ ∧
    WLog.warnInvalidEndpoint Method.get reqU.path ∈ (handle_request w0 reqU 1).logs :=
  ⟨rfl, (C6_unmatched_endpoint w0 reqU 1).1 Method.get rfl (by decide) (by decide)⟩

/-! ## Claims about the durable file value store -/

theorem Fs.get_set_self (fs : Fs) (p : String) (d : List Nat) :
    (fs.set p d).get p = some d := by
  simp [Fs.get, Fs.set]

theorem Fs.get_set_ne (fs : Fs) (p q : String) (d : List Nat) (h : q ≠ p) :
    (fs.set p d).get q = fs.get q := by
  simp [Fs.get, Fs.set, h]

theorem Fs.get_erase_self (fs : Fs) (p : String) : (fs.erase p).get p = none := by
  simp [Fs.get, Fs.erase]

theorem Fs.get_erase_ne (fs : Fs) (p q : String) (h : q ≠ p) :
    (fs.erase p).get q = fs.get q := by
  simp [Fs.get, Fs.erase, h]

theorem openLockEnsure_get_ne (fs : Fs) (l q : String) (h : q ≠ l) :
    (openLockEnsure fs l).get q = fs.get q := by
  unfold openLockEnsure
  by_cases hs : (fs.get l).isSome = true
  · rw [if_pos hs]
  · rw [if_neg hs]
    exact Fs.get_set_ne fs l q [] h

theorem openLockEnsure_isSome (fs : Fs) (l : String) :
    ((openLockEnsure fs l).get l).isSome = true := by
  unfold openLockEnsure
  by_cases hs : (fs.get l).isSome = true
  · rw [if_pos hs]; exact hs
  · rw [if_neg hs]; simp [Fs.get_set_self]

theorem openLockEnsure_of_isSome (fs : Fs) (l : String) (h : (fs.get l).isSome = true) :
    openLockEnsure fs l = fs := by
  unfold openLockEnsure
  rw [if_pos h]

theorem append_ne_self (p x : String) (h : x.data ≠ []) : p ++ x ≠ p := by
  intro hEq
  have hd : p.data ++ x.data = p.data := by
    rw [← String.data_append]
    exact congrArg String.data hEq
  have hl := congrArg List.length hd
  rw [List.length_append] at hl
  have hx : x.data.length = 0 := by omega
  exact h (List.eq_nil_of_length_eq_zero hx)

theorem path_with_suffix_ne_base (p suffix : String) (h : suffix.data ≠ []) :
    path_with_suffix p suffix ≠ p := by
  unfold path_with_suffix
  by_cases hE : hasExtension p = true
  · rw [if_pos hE]; exact append_ne_self p suffix h
  · rw [if_neg hE]
    apply append_ne_self
    simp [String.data_append]

theorem path_with_suffix_ne_pair (p s1 s2 : String) (h : s1.data ≠ s2.data) :
    path_with_suffix p s1 ≠ path_with_suffix p s2 := by
  unfold path_with_suffix
  have key : ∀ a b : String, a.data ≠ b.data → p ++ a ≠ p ++ b := by
    intro a b hab hEq
    apply hab
    have hd : p.data ++ a.data = p.data ++ b.data := by
      rw [← String.data_append, ← String.data_append]
      exact congrArg String.data hEq
    exact List.append_cancel_left hd
  by_cases hE : hasExtension p = true
  · rw [if_pos hE, if_pos hE]; exact key s1 s2 h
  · rw [if_neg hE, if_neg hE]
    apply key
    intro hEq
    apply h
    have h2 : ".".data ++ s1.data = ".".data ++ s2.data := by
      rw [← String.data_append, ← String.data_append]
      exact hEq
    exact List.append_cancel_left h2

theorem new_path_ne_temp (p : String) :
    (FileStorage.new p).path ≠ (FileStorage.new p).temp_path := by
  exact fun hEq => path_with_suffix_ne_base p ".tmp" (by decide) hEq.symm

theorem new_path_ne_lock (p : String) :
    (FileStorage.new p).path ≠ (FileStorage.new p).lock_path := by
  exact fun hEq => path_with_suffix_ne_base p ".lock" (by decide) hEq.symm

theorem new_temp_ne_lock (p : String) :
    (FileStorage.new p).temp_path ≠ (FileStorage.new p).lock_path := by
  exact path_with_suffix_ne_pair p ".tmp" ".lock" (by decide)

/-- C7: the claim that FileStorage create/init, under the exclusive lock,
atomically writes exactly the caller-supplied default value whenever the
primary file does not exist is violated by the code: flush_to_file opens the
temp file with write+create but without truncate, so a stale temp file (here
bytes "99" left at the temp path by an interrupted earlier write) survives
past the encoded default "5", and init completes Ok leaving the primary file
containing "59", which deserializes as 59 instead of the default 5. -/
theorem C7_stale_temp_corrupts_init :
    ((FileStorage.new "v").init natCodec 5 fsC7 noFaults).res = Except.ok () ∧
    fsC7.get (FileStorage.new "v").path = none ∧
    natCodec.enc 5 = [53] ∧
    ((FileStorage.new "v").init natCodec 5 fsC7 noFaults).fs.get "v" = some [53, 57] ∧
    ((FileStorage.new "v").init natCodec 5 fsC7 noFaults).fs.get "v" ≠
      some (natCodec.enc 5) ∧
    natCodec.dec [53, 57] = some 59 := by
  decide

/-- C9: the claim that no partial write ever reaches the primary path is
violated by the code: a first update whose write fails after 3 bytes leaves
the partial bytes "123" in the temp file and correctly surfaces an I/O-typed
error with the primary untouched; but because flush_to_file opens the temp
file without truncate, a second, fault-free update to the value 7 renames the
blended content "723" onto the primary, carrying bytes of the aborted partial
write into the primary file, and a subsequent read returns 723 instead of 7. -/
theorem C9_partial_write_reaches_primary :
    ((FileStorage.new "v").update_value natCodec (fun _ => Except.ok (12345, ()))
        fsC9 faultsCutWrite).res = Except.error SErr.ioError ∧
    ((FileStorage.new "v").update_value natCodec (fun _ => Except.ok (12345, ()))
        fsC9 faultsCutWrite).fs.get "v" = some [49] ∧
    ((FileStorage.new "v").update_value natCodec (fun _ => Except.ok (12345, ()))
        fsC9 faultsCutWrite).fs.get (FileStorage.new "v").temp_path = some [49, 50, 51] ∧
    ((FileStorage.new "v").update_value natCodec (fun _ => Except.ok (7, ()))
        ((FileStorage.new "v").update_value natCodec (fun _ => Except.ok (12345, ()))
          fsC9 faultsCutWrite).fs noFaults).res = Except.ok () ∧
    ((FileStorage.new "v").update_value natCodec (fun _ => Except.ok (7, ()))
        ((FileStorage.new "v").update_value natCodec (fun _ => Except.ok (12345, ()))
          fsC9 faultsCutWrite).fs noFaults).fs.get "v" = some [55, 50, 51] ∧
    ((FileStorage.new "v").read_value natCodec (fun v => Except.ok v)
        ((FileStorage.new "v").update_value natCodec (fun _ => Except.ok (7, ()))
          ((FileStorage.new "v").update_value natCodec (fun _ => Except.ok (12345, ()))
            fsC9 faultsCutWrite).fs noFaults).fs noFaults).res = Except.ok 723 ∧
    (723 : Nat) ≠ 7 := by
  decide

theorem load_of_get {V : Type} (codec : Codec V) (path : String) (fs : Fs)
    (bytes : List Nat) (v : V) (hb : fs.get path = some bytes)
    (hd : codec.dec bytes = some v) :
    load codec path fs noFaults = Except.ok v := by
  simp [load, noFaults, hb, hd]

theorem open_lock_file_noFaults (l : String) (fs : Fs) :
    open_lock_file l fs noFaults = ⟨Except.ok (), openLockEnsure fs l, []⟩ := rfl

theorem noFaults_lockFails : noFaults.lockFails = false := rfl

theorem noFaults_unlockFails : noFaults.unlockFails = false := rfl

theorem flush_clean_eq (target temp : String) (data : List Nat) (fs : Fs)
    (hT : fs.get temp = none) :
    flush_to_file target temp data fs noFaults =
      ⟨Except.ok (),
        Fs.set (Fs.erase (Fs.set (Fs.set fs temp []) temp data) temp) target data,
        [FsEvent.write temp, FsEvent.renamed temp target]⟩ := by
  simp [flush_to_file, noFaults, hT, Fs.rename, Fs.get_set_self]

theorem flush_fs_get (target temp : String) (data : List Nat) (fs : Fs) (q : String) :
    (Fs.set (Fs.erase (Fs.set (Fs.set fs temp []) temp data) temp) target data).get q =
      if q = target then some data else if q = temp then none else fs.get q := by
  by_cases h1 : q = target
  · subst h1
    rw [if_pos rfl]
    exact Fs.get_set_self _ _ _
  · rw [if_neg h1, Fs.get_set_ne _ _ _ _ h1]
    by_cases h2 : q = temp
    · subst h2
      rw [if_pos rfl]
      exact Fs.get_erase_self _ _
    · rw [if_neg h2, Fs.get_erase_ne _ _ _ h2, Fs.get_set_ne _ _ _ _ h2,
        Fs.get_set_ne _ _ _ _ h2]

theorem init_fresh_eq (s : FileStorage) {V : Type} (codec : Codec V) (dflt : V) (fs : Fs)
    (hP : (openLockEnsure fs s.lock_path).get s.path = none)
    (hT : (openLockEnsure fs s.lock_path).get s.temp_path = none) :
    s.init codec dflt fs noFaults =
      ⟨Except.ok (),
        Fs.set (Fs.erase (Fs.set (Fs.set (openLockEnsure fs s.lock_path) s.temp_path [])
          s.temp_path (codec.enc dflt)) s.temp_path) s.path (codec.enc dflt),
        FsEvent.lockEx ::
          ([FsEvent.write s.temp_path, FsEvent.renamed s.temp_path s.path] ++
            [FsEvent.unlock])⟩ := by
  unfold FileStorage.init
  rw [open_lock_file_noFaults]
  simp only [noFaults_lockFails, noFaults_unlockFails, Bool.false_eq_true, if_false, hP,
    Option.isSome_none, flush_clean_eq _ _ _ _ hT]

theorem read_ok_spec (s : FileStorage) {V R : Type} (codec : Codec V)
    (f : V → Except SErr R) (fs : Fs) (bytes : List Nat) (v : V) (r : R)
    (hpl : s.path ≠ s.lock_path) (hP : fs.get s.path = some bytes)
    (hd : codec.dec bytes = some v) (hf : f v = Except.ok r) :
    (s.read_value codec f fs noFaults).res = Except.ok r ∧
    (s.read_value codec f fs noFaults).fs = openLockEnsure fs s.lock_path := by
  have hP1 : (openLockEnsure fs s.lock_path).get s.path = some bytes := by
    rw [openLockEnsure_get_ne fs s.lock_path s.path hpl]; exact hP
  have hload := load_of_get codec s.path (openLockEnsure fs s.lock_path) bytes v hP1 hd
  unfold FileStorage.read_value
  rw [open_lock_file_noFaults]
  simp only [noFaults_lockFails, noFaults_unlockFails, Bool.false_eq_true, if_false, hload, hf]
  exact ⟨trivial, trivial⟩

theorem update_ok_spec (s : FileStorage) {V R : Type} (codec : Codec V)
    (f : V → Except SErr (V × R)) (fs : Fs) (bytes : List Nat) (v v2 : V) (r : R)
    (hpl : s.path ≠ s.lock_path) (htl : s.temp_path ≠ s.lock_path)
    (hP : fs.get s.path = some bytes) (hd : codec.dec bytes = some v)
    (hT : fs.get s.temp_path = none) (hf : f v = Except.ok (v2, r)) :
    (s.update_value codec f fs noFaults).res = Except.ok r ∧
    ∀ q, (s.update_value codec f fs noFaults).fs.get q =
      if q = s.path then some (codec.enc v2)
      else if q = s.temp_path then none
      else (openLockEnsure fs s.lock_path).get q := by
  have hP1 : (openLockEnsure fs s.lock_path).get s.path = some bytes := by
    rw [openLockEnsure_get_ne fs s.lock_path s.path hpl]; exact hP
  have hT1 : (openLockEnsure fs s.lock_path).get s.temp_path = none := by
    rw [openLockEnsure_get_ne fs s.lock_path s.temp_path htl]; exact hT
  have hload := load_of_get codec s.path (openLockEnsure fs s.lock_path) bytes v hP1 hd
  unfold FileStorage.update_value
  rw [open_lock_file_noFaults]
  simp only [noFaults_lockFails, noFaults_unlockFails, Bool.false_eq_true, if_false, hload,
    hf, flush_clean_eq s.path s.temp_path (codec.enc v2) _ hT1]
  exact ⟨trivial, fun q => flush_fs_get s.path s.temp_path (codec.enc v2) _ q⟩

theorem update_f_error_spec (s : FileStorage) {V R : Type} (codec : Codec V)
    (f : V → Except SErr (V × R)) (fs : Fs) (bytes : List Nat) (v : V) (e : SErr)
    (hpl : s.path ≠ s.lock_path) (hP : fs.get s.path = some bytes)
    (hd : codec.dec bytes = some v) (hf : f v = Except.error e) :
    (s.update_value codec f fs noFaults).res = Except.error e ∧
    (s.update_value codec f fs noFaults).fs = openLockEnsure fs s.lock_path ∧
    (s.update_value codec f fs noFaults).events = [FsEvent.lockEx] := by
  have hP1 : (openLockEnsure fs s.lock_path).get s.path = some bytes := by
    rw [openLockEnsure_get_ne fs s.lock_path s.path hpl]; exact hP
  have hload := load_of_get codec s.path (openLockEnsure fs s.lock_path) bytes v hP1 hd
  unfold FileStorage.update_value
  rw [open_lock_file_noFaults]
  simp only [noFaults_lockFails, noFaults_unlockFails, Bool.false_eq_true, if_false, hload, hf]
  exact ⟨trivial, trivial, trivial⟩

/-- C8: round-trip over a store freshly created from a clean base path: create
succeeds; a read with the identity transform straight after create returns the
default value D; an update with the transform that replaces the value by V
succeeds; and every subsequent identity read (one right after the update, and
another after that read) returns V, for any codec-round-trippable D and V. -/
theorem C8_round_trip {V : Type} (p : String) (codec : Codec V) (D Vv : V) (fs : Fs)
    (hP : fs.get (FileStorage.new p).path = none)
    (hT : fs.get (FileStorage.new p).temp_path = none)
    (hD : codec.dec (codec.enc D) = some D)
    (hV : codec.dec (codec.enc Vv) = some Vv) :
    (FileStorage.create p codec D fs noFaults).res = Except.ok (FileStorage.new p) ∧
    ((FileStorage.new p).read_value codec (fun v => Except.ok v)
        (FileStorage.create p codec D fs noFaults).fs noFaults).res = Except.ok D ∧
    ((FileStorage.new p).update_value codec (fun _ => Except.ok (Vv, ()))
        (FileStorage.create p codec D fs noFaults).fs noFaults).res = Except.ok () ∧
    ((FileStorage.new p).read_value codec (fun v => Except.ok v)
        ((FileStorage.new p).update_value codec (fun _ => Except.ok (Vv, ()))
          (FileStorage.create p codec D fs noFaults).fs noFaults).fs noFaults).res =
      Except.ok Vv ∧
    ((FileStorage.new p).read_value codec (fun v => Except.ok v)
        ((FileStorage.new p).read_value codec (fun v => Except.ok v)
          ((FileStorage.new p).update_value codec (fun _ => Except.ok (Vv, ()))
            (FileStorage.create p codec D fs noFaults).fs noFaults).fs noFaults).fs
        noFaults).res = Except.ok Vv := by
  have hpt := new_path_ne_temp p
  have hpl := new_path_ne_lock p
  have htl := new_temp_ne_lock p
  have hP1 : (openLockEnsure fs (FileStorage.new p).lock_path).get
      (FileStorage.new p).path = none := by
    rw [openLockEnsure_get_ne _ _ _ hpl]; exact hP
  have hT1 : (openLockEnsure fs (FileStorage.new p).lock_path).get
      (FileStorage.new p).temp_path = none := by
    rw [openLockEnsure_get_ne _ _ _ htl]; exact hT
  have hinit := init_fresh_eq (FileStorage.new p) codec D fs hP1 hT1
  have hcres : (FileStorage.create p codec D fs noFaults).res =
      Except.ok (FileStorage.new p) := by
    simp only [FileStorage.create]
    rw [hinit]
  have hcfs : (FileStorage.create p codec D fs noFaults).fs =
      ((FileStorage.new p).init codec D fs noFaults).fs := by
    simp only [FileStorage.create]
    rw [hinit]
  have hget : ∀ q, (FileStorage.create p codec D fs noFaults).fs.get q =
      if q = (FileStorage.new p).path then some (codec.enc D)
      else if q = (FileStorage.new p).temp_path then none
      else (openLockEnsure fs (FileStorage.new p).lock_path).get q := by
    intro q
    rw [hcfs, hinit]
    exact flush_fs_get _ _ _ _ q
  have hgetP : (FileStorage.create p codec D fs noFaults).fs.get
      (FileStorage.new p).path = some (codec.enc D) := by
    rw [hget, if_pos rfl]
  have hgetT : (FileStorage.create p codec D fs noFaults).fs.get
      (FileStorage.new p).temp_path = none := by
    rw [hget, if_neg (fun h => hpt h.symm), if_pos rfl]
  have hread1 := read_ok_spec (FileStorage.new p) codec (fun v => Except.ok v)
    (FileStorage.create p codec D fs noFaults).fs (codec.enc D) D D hpl hgetP hD rfl
  have hupd := update_ok_spec (FileStorage.new p) codec (fun _ => Except.ok (Vv, ()))
    (FileStorage.create p codec D fs noFaults).fs (codec.enc D) D Vv () hpl htl
    hgetP hD hgetT rfl
  have hufsP : ((FileStorage.new p).update_value codec (fun _ => Except.ok (Vv, ()))
      (FileStorage.create p codec D fs noFaults).fs noFaults).fs.get
      (FileStorage.new p).path = some (codec.enc Vv) := by
    rw [hupd.2, if_pos rfl]
  have hread2 := read_ok_spec (FileStorage.new p) codec (fun v => Except.ok v)
    ((FileStorage.new p).update_value codec (fun _ => Except.ok (Vv, ()))
      (FileStorage.create p codec D fs noFaults).fs noFaults).fs
    (codec.enc Vv) Vv Vv hpl hufsP hV rfl
  have hr2P : ((FileStorage.new p).read_value codec (fun v => Except.ok v)
      ((FileStorage.new p).update_value codec (fun _ => Except.ok (Vv, ()))
        (FileStorage.create p codec D fs noFaults).fs noFaults).fs noFaults).fs.get
      (FileStorage.new p).path = some (codec.enc Vv) := by
    rw [hread2.2, openLockEnsure_get_ne _ _ _ hpl]
    exact hufsP
  have hread3 := read_ok_spec (FileStorage.new p) codec (fun v => Except.ok v)
    ((FileStorage.new p).read_value codec (fun v => Except.ok v)
      ((FileStorage.new p).update_value codec (fun _ => Except.ok (Vv, ()))
        (FileStorage.create p codec D fs noFaults).fs noFaults).fs noFaults).fs
    (codec.enc Vv) Vv Vv hpl hr2P hV rfl
  exact ⟨hcres, hread1.1, hupd.1, hread2.1, hread3.1⟩

/-- C8 witness: the theorem applied to the concrete Nat codec on an empty
filesystem with default 0 and update value 7. -/
theorem C8_witness :
    fsEmpty.get (FileStorage.new "v").path = none ∧
    fsEmpty.get (FileStorage.new "v").temp_path = none ∧
    natCodec.dec (natCodec.enc 0) = some 0 ∧
    natCodec.dec (natCodec.enc 7) = some 7 ∧
    ((FileStorage.create "v" natCodec 0 fsEmpty noFaults).res =
        Except.ok (FileStorage.new "v") ∧
      ((FileStorage.new "v").read_value natCodec (fun v => Except.ok v)
          (FileStorage.create "v" natCodec 0 fsEmpty noFaults).fs noFaults).res =
        Except.ok 0 ∧
      ((FileStorage.new "v").update_value natCodec (fun _ => Except.ok (7, ()))
          (FileStorage.create "v" natCodec 0 fsEmpty noFaults).fs noFaults).res =
        Except.ok () ∧
      ((FileStorage.new "v").read_value natCodec (fun v => Except.ok v)
          ((FileStorage.new "v").update_value natCodec (fun _ => Except.ok (7, ()))
            (FileStorage.create "v" natCodec 0 fsEmpty noFaults).fs noFaults).fs
          noFaults).res = Except.ok 7 ∧
      ((FileStorage.new "v").read_value natCodec (fun v => Except.ok v)
          ((FileStorage.new "v").read_value natCodec (fun v => Except.ok v)
            ((FileStorage.new "v").update_value natCodec (fun _ => Except.ok (7, ()))
              (FileStorage.create "v" natCodec 0 fsEmpty noFaults).fs noFaults).fs
            noFaults).fs noFaults).res = Except.ok 7) :=
  ⟨rfl, rfl, by decide, by decide,
    C8_round_trip "v" natCodec 0 7 fsEmpty rfl rfl (by decide) (by decide)⟩

/-- C10: when the caller-supplied transform fails on the current stored value,
update_value returns exactly that error; the primary file's contents are
unchanged, the temp path is untouched, the only file-level event is the lock
acquisition (no write and no rename happened), and a subsequent identity read
still returns the pre-update value. -/
theorem C10_update_transform_error {V R : Type} (p : String) (codec : Codec V)
    (f : V → Except SErr (V × R)) (fs : Fs) (bytes : List Nat) (v : V) (e : SErr)
    (hP : fs.get (FileStorage.new p).path = some bytes)
    (hd : codec.dec bytes = some v)
    (hf : f v = Except.error e) :
    ((FileStorage.new p).update_value codec f fs noFaults).res = Except.error e ∧
    ((FileStorage.new p).update_value codec f fs noFaults).fs.get
      (FileStorage.new p).path = some bytes ∧
    ((FileStorage.new p).update_value codec f fs noFaults).fs.get
      (FileStorage.new p).temp_path = fs.get (FileStorage.new p).temp_path ∧
    ((FileStorage.new p).update_value codec f fs noFaults).events = [FsEvent.lockEx] ∧
    (∀ q, FsEvent.write q ∉
      ((FileStorage.new p).update_value codec f fs noFaults).events) ∧
    (∀ a b, FsEvent.renamed a b ∉
      ((FileStorage.new p).update_value codec f fs noFaults).events) ∧
    ((FileStorage.new p).read_value codec (fun x => Except.ok x)
        ((FileStorage.new p).update_value codec f fs noFaults).fs noFaults).res =
      Except.ok v := by
  have hpl := new_path_ne_lock p
  have htl := new_temp_ne_lock p
  obtain ⟨hres, hfs, hev⟩ :=
    update_f_error_spec (FileStorage.new p) codec f fs bytes v e hpl hP hd hf
  have hP2 : ((FileStorage.new p).update_value codec f fs noFaults).fs.get
      (FileStorage.new p).path = some bytes := by
    rw [hfs, openLockEnsure_get_ne _ _ _ hpl]
    exact hP
  refine ⟨hres, hP2, ?_, hev, ?_, ?_, ?_⟩
  · rw [hfs, openLockEnsure_get_ne _ _ _ htl]
  · intro q
    rw [hev]
    simp
  · intro a b
    rw [hev]
    simp
  · exact (read_ok_spec (FileStorage.new p) codec (fun x => Except.ok x) _ bytes v v
      hpl hP2 hd rfl).1

/-- C10 witness: the theorem applied to the Nat codec on a filesystem whose
primary holds 5, with a transform that fails with an I/O error. -/
theorem C10_witness :
    fsC10.get (FileStorage.new "v").path = some [53] ∧
    natCodec.dec [53] = some 5 ∧
    ((fun _ => Except.error SErr.ioError : Nat → Except SErr (Nat × Unit)) 5 =
      Except.error SErr.ioError) ∧
    (((FileStorage.new "v").update_value natCodec
        (fun _ => Except.error SErr.ioError : Nat → Except SErr (Nat × Unit))
        fsC10 noFaults).res = Except.error SErr.ioError ∧
      ((FileStorage.new "v").update_value natCodec
        (fun _ => Except.error SErr.ioError : Nat → Except SErr (Nat × Unit))
        fsC10 noFaults).fs.get (FileStorage.new "v").path = some [53] ∧
      ((FileStorage.new "v").update_value natCodec
        (fun _ => Except.error SErr.ioError : Nat → Except SErr (Nat × Unit))
        fsC10 noFaults).fs.get (FileStorage.new "v").temp_path =
        fsC10.get (FileStorage.new "v").temp_path ∧
      ((FileStorage.new "v").update_value natCodec
        (fun _ => Except.error SErr.ioError : Nat → Except SErr (Nat × Unit))
        fsC10 noFaults).events = [FsEvent.lockEx] ∧
      (∀ q, FsEvent.write q ∉
        ((FileStorage.new "v").update_value natCodec
          (fun _ => Except.error SErr.ioError : Nat → Except SErr (Nat × Unit))
          fsC10 noFaults).events) ∧
      (∀ a b, FsEvent.renamed a b ∉
        ((FileStorage.new "v").update_value natCodec
          (fun _ => Except.error SErr.ioError : Nat → Except SErr (Nat × Unit))
          fsC10 noFaults).events) ∧
      ((FileStorage.new "v").read_value natCodec (fun x => Except.ok x)
          ((FileStorage.new "v").update_value natCodec
            (fun _ => Except.error SErr.ioError : Nat → Except SErr (Nat × Unit))
            fsC10 noFaults).fs noFaults).res = Except.ok 5) :=
  ⟨rfl, by decide, rfl,
    C10_update_transform_error "v" natCodec
      (fun _ => Except.error SErr.ioError : Nat → Except SErr (Nat × Unit))
      fsC10 [53] 5 SErr.ioError rfl (by decide) rfl⟩

end Ockam
